import Mathlib

/-!
A shallow embedding of `src/scripts/run_etl.py` (steadycalls/seo-audit-pipeline).

The ETL pipeline walks `<export_root>/<date>/<domain>/` directories, resolves
Site and Crawl rows, parses a Screaming Frog `*internal_all*.csv` export into
Page rows, bulk-inserts them with a conflict-ignore policy, stamps the crawl
summary, logs events best-effort, optionally archives the processed directory,
and wraps the whole run in a single database transaction.

Database tables become lists of records; the transaction state is threaded
explicitly.  Exceptions become `Except` results; Python state mutation that
has already happened when an exception is raised is preserved (the pair
`Except e × World` always carries the post-mutation world).  External fault
sources (CSV read errors, batch-insert errors, log-insert errors, archive
errors, `iterdir` errors) are injected through explicit fault flags so that
the error-handling paths of the source are exercised, not assumed away.
-/

namespace SeoEtl

/-- A row of the `sites` table (see the INSERT in `get_or_create_site`). -/
structure SiteRow where
  site_id : Nat
  domain : String
  label : String
  status : String
deriving Repr, DecidableEq

/-- A row of the `crawls` table (see the INSERT in `get_or_create_crawl` and
the UPDATE in `update_crawl_summary`).  Timestamps are modelled by a logical
clock (`Option Nat`); `none` means the column was never set. -/
structure CrawlRow where
  crawl_id : Nat
  site_id : Nat
  crawl_date : String
  crawl_status : String
  total_pages : Option Nat
  crawl_started_at : Option Nat
  crawl_completed_at : Option Nat
deriving Repr, DecidableEq

/-- A row of the `pages` table, one per CSV data row (the tuple built in
`process_internal_all_csv`). -/
structure PageRow where
  crawl_id : Nat
  url : String
  status_code : Option Nat
  indexability : String
  indexability_status : String
  title : String
  title_length : Option Nat
  meta_description : String
  meta_description_length : Option Nat
  h1 : String
  h1_count : Option Nat
  word_count : Option Nat
  response_time_ms : Option Nat
  size_bytes : Option Nat
  canonical_link : String
  robots_txt_status : String
  x_robots_tag : String
deriving Repr, DecidableEq

/-- A row of the `etl_logs` table (see `log_etl_event`). -/
structure LogRow where
  crawl_id : Option Nat
  site_id : Option Nat
  log_level : String
  message : String
  file_path : Option String
deriving Repr, DecidableEq

/-- The in-transaction database state: the four tables, surrogate-key
counters, and a logical clock standing in for `datetime.now()`. -/
structure DB where
  sites : List SiteRow
  crawls : List CrawlRow
  pages : List PageRow
  etl_logs : List LogRow
  nextSiteId : Nat
  nextCrawlId : Nat
  clock : Nat
deriving Repr, DecidableEq

/-- The world state of a run: the transaction `db`, plus the list of domain
directories moved by the archive step (filesystem effects, outside the
transaction). -/
structure World where
  db : DB
  archived : List String
deriving Repr, DecidableEq

/-- Python exceptions that the embedded pipeline can raise, by origin. -/
inductive EtlErr where
  | osError
  | csvError
  | dbError
  | keyError
  | sysExit
  | typeError
deriving Repr, DecidableEq

instance : DecidableEq (Except EtlErr Unit) := fun a b =>
  match a, b with
  | Except.ok (), Except.ok () => isTrue rfl
  | Except.error e1, Except.error e2 =>
    match decEq e1 e2 with
    | isTrue h => isTrue (by rw [h])
    | isFalse h => isFalse (fun hc => h (Except.error.inj hc))
  | Except.ok (), Except.error _ => isFalse (fun hc => Except.noConfusion hc)
  | Except.error _, Except.ok () => isFalse (fun hc => Except.noConfusion hc)

instance : DecidableEq (Except EtlErr Nat) := fun a b =>
  match a, b with
  | Except.ok n1, Except.ok n2 =>
    match decEq n1 n2 with
    | isTrue h => isTrue (by rw [h])
    | isFalse h => isFalse (fun hc => h (Except.ok.inj hc))
  | Except.error e1, Except.error e2 =>
    match decEq e1 e2 with
    | isTrue h => isTrue (by rw [h])
    | isFalse h => isFalse (fun hc => h (Except.error.inj hc))
  | Except.ok _, Except.error _ => isFalse (fun hc => Except.noConfusion hc)
  | Except.error _, Except.ok _ => isFalse (fun hc => Except.noConfusion hc)

/-- Injected fault sources for the fallible externals the source guards
against: the `etl_logs` INSERT (caught in `log_etl_event`) and `shutil.move`
(caught in `archive_processed_files`). -/
structure Faults where
  logFail : Bool
  archiveFail : Bool
deriving Repr, DecidableEq

/-- The configuration keys the core consumes, each optional because the code
reads them with `config.get`. -/
structure Config where
  archive_processed_files : Option Bool
  base_export_path : Option String
deriving Repr, DecidableEq

/-! ## CSV rows and numeric coercion (`process_internal_all_csv`, lines 202-223) -/

/-- One parsed CSV data row: the `csv.DictReader` dictionary, as an
association list from header name to raw field string.  A key that is absent
models a column missing from the file's header. -/
abbrev Row : Type := List (String × String)

/-- `row.get(k, d)` on a `DictReader` row. -/
def rowGetD (row : Row) (k d : String) : String :=
  match row.find? (fun p => p.1 == k) with
  | some p => p.2
  | none => d

/-- Python's `str.isdigit` restricted to the decimal-digit alphabet: true
iff the string is nonempty and every character is a decimal digit `0`-`9`. -/
def pyIsDigit (s : String) : Bool :=
  !s.data.isEmpty && s.data.all (fun c => c.isDigit)

/-- Python's `int` on a digit-only string: left fold over the decimal
digits, as the CPython parser computes it. -/
def pyIntOfDigits (s : String) : Nat :=
  s.data.foldl (fun a c => 10 * a + (c.toNat - 48)) 0

/-- The coercion applied to every numeric column, line 207 and friends:
`int(row.get(col, 0)) if row.get(col, '').isdigit() else None`. -/
def coerceNumField (row : Row) (col : String) : Option Nat :=
  let s := rowGetD row col ""
  if pyIsDigit s then some (pyIntOfDigits s) else none

/-- The Page tuple built from one CSV row (lines 204-222). -/
def pageOfRow (crawlId : Nat) (r : Row) : PageRow :=
  { crawl_id := crawlId
    url := rowGetD r "Address" ""
    status_code := coerceNumField r "Status Code"
    indexability := rowGetD r "Indexability" ""
    indexability_status := rowGetD r "Indexability Status" ""
    title := rowGetD r "Title 1" ""
    title_length := coerceNumField r "Title 1 Length"
    meta_description := rowGetD r "Meta Description 1" ""
    meta_description_length := coerceNumField r "Meta Description 1 Length"
    h1 := rowGetD r "H1-1" ""
    h1_count := coerceNumField r "H1-1 length"
    word_count := coerceNumField r "Word Count"
    response_time_ms := coerceNumField r "Response Time"
    size_bytes := coerceNumField r "Size (bytes)"
    canonical_link := rowGetD r "Canonical Link Element 1" ""
    robots_txt_status := rowGetD r "robots.txt" ""
    x_robots_tag := rowGetD r "X-Robots-Tag 1" "" }

/-- The decimal value a digit string denotes, written independently of
`pyIntOfDigits` via Mathlib's little-endian `Nat.ofDigits`. -/
def decimalValue (s : String) : Nat :=
  Nat.ofDigits 10 ((s.data.map (fun c => c.toNat - 48)).reverse)

example : coerceNumField [("Status Code", "42")] "Status Code" = some 42 := by decide
example : coerceNumField [("Status Code", "")] "Status Code" = none := by decide
example : coerceNumField [("Status Code", "-3")] "Status Code" = none := by decide
example : coerceNumField [("Status Code", "3.5")] "Status Code" = none := by decide
example : coerceNumField [("Other", "7")] "Status Code" = none := by decide

/-! ## Filesystem model -/

/-- One file inside a domain directory.  `readFail` injects a file-level
read/parse error (the `except` of `process_internal_all_csv`); `insertFail`
injects a failure of the batch INSERT for this file's rows. -/
structure CsvFile where
  name : String
  readFail : Bool
  insertFail : Bool
  rows : List Row
deriving Repr, DecidableEq

/-- One entry of a date directory's `iterdir()` listing; `isDir` is
`entry.is_dir()`. -/
structure DomainDir where
  name : String
  isDir : Bool
  files : List CsvFile
deriving Repr, DecidableEq

/-- One entry of the export root's `iterdir()` listing.  `iterFail` injects
an OS error from `date_dir.iterdir()` — an exception that escapes the
per-domain boundary. -/
structure DateEntry where
  name : String
  isDir : Bool
  iterFail : Bool
  entries : List DomainDir
deriving Repr, DecidableEq

/-- The export root.  `pathExists` is `export_path.exists()`; `iterFail`
injects an OS error from `export_dir.iterdir()`. -/
structure ExportRoot where
  pathExists : Bool
  iterFail : Bool
  entries : List DateEntry
deriving Repr, DecidableEq

/-- `p.isPrefixOf`-style check on character lists. -/
def startsWithChars : List Char → List Char → Bool
  | [], _ => true
  | _ :: _, [] => false
  | p :: ps, c :: cs => p == c && startsWithChars ps cs

/-- Contiguous-substring check on character lists. -/
def hasSubseg (pat : List Char) : List Char → Bool
  | [] => startsWithChars pat []
  | c :: cs => startsWithChars pat (c :: cs) || hasSubseg pat cs

/-- `Path.glob("*internal_all*.csv")` membership for one file name: the name
ends in the literal `.csv` and what precedes that suffix contains
`internal_all` as a contiguous substring (the two `*` absorb anything). -/
def matchesInternalAllGlob (name : String) : Bool :=
  startsWithChars ".csv".data.reverse name.data.reverse
    && hasSubseg "internal_all".data (name.data.take (name.data.length - 4))

/-- Line 305: `list(domain_dir.glob("*internal_all*.csv"))`. -/
def domainCsvFiles (d : DomainDir) : List CsvFile :=
  d.files.filter (fun f => matchesInternalAllGlob f.name)

/-- Line 289: `date_dir.name.replace('_', '-')`. -/
def underscoreToHyphen (s : String) : String :=
  String.mk (s.data.map (fun c => if c == '_' then '-' else c))

/-- Line 282 list comprehension:
`[d for d in export_dir.iterdir() if d.is_dir() and len(d.name) == 10]`. -/
def dateDirsOf (entries : List DateEntry) : List DateEntry :=
  entries.filter (fun e => e.isDir && e.name.length == 10)

/-- Lexicographic order on character lists, by code point — how Python
compares the path strings that `sorted` ranks. -/
def charListLe : List Char → List Char → Bool
  | [], _ => true
  | _ :: _, [] => false
  | a :: as, b :: bs =>
    if a.toNat < b.toNat then true
    else if b.toNat < a.toNat then false
    else charListLe as bs

/-- String order used by `sorted(date_dirs)`. -/
def nameLe (a b : String) : Bool := charListLe a.data b.data

/-- Insertion step for sorting date directories by name. -/
def insertByName (x : DateEntry) : List DateEntry → List DateEntry
  | [] => [x]
  | y :: ys => if nameLe x.name y.name then x :: y :: ys else y :: insertByName x ys

/-- Line 288 `sorted(date_dirs)`: Path objects sort by their string, i.e.
lexicographically by directory name. -/
def sortDates : List DateEntry → List DateEntry
  | [] => []
  | x :: xs => insertByName x (sortDates xs)

/-- `str(date_dir / domain_dir)`-style path for log messages. -/
def pathJoin (a b : String) : String :=
  String.append a (String.append "/" b)

/-! ## Database operations -/

/-- The raw `INSERT INTO etl_logs ...` in `log_etl_event`: appends one row,
or raises when the injected log fault is on. -/
def tryInsertLogRow (faults : Faults) (cid sid : Option Nat) (lvl msg : String)
    (fp : Option String) (w : World) : Except EtlErr Unit × World :=
  if faults.logFail then (Except.error EtlErr.dbError, w)
  else (Except.ok (),
    { w with db := { w.db with
        etl_logs := w.db.etl_logs ++ [{ crawl_id := cid, site_id := sid,
                                        log_level := lvl, message := msg,
                                        file_path := fp }] } })

/-- `log_etl_event` (lines 134-144): the INSERT is wrapped in
`try/except` whose handler only prints — the failure is discarded and the
function returns normally on every path. -/
def log_etl_event (faults : Faults) (cid sid : Option Nat) (lvl msg : String)
    (fp : Option String) (w : World) : World :=
  match tryInsertLogRow faults cid sid lvl msg fp w with
  | (Except.ok _, w') => w'
  | (Except.error _, w') => w'

/-- `get_or_create_site` (lines 150-167): SELECT by domain; if absent,
INSERT with status `'active'` and label defaulting to the domain, returning
the generated id. -/
def get_or_create_site (w : World) (domain : String) (label : Option String) :
    Nat × World :=
  match w.db.sites.find? (fun s => s.domain == domain) with
  | some s => (s.site_id, w)
  | none =>
    let id := w.db.nextSiteId
    (id, { w with db := { w.db with
        sites := w.db.sites ++ [{ site_id := id, domain := domain,
                                  label := label.getD domain,
                                  status := "active" }],
        nextSiteId := id + 1 } })

/-- `get_or_create_crawl` (lines 169-186): SELECT by (site_id, crawl_date);
if absent, INSERT with status `'completed'`, `crawl_started_at = now()`, and
`total_pages`/`crawl_completed_at` left unset. -/
def get_or_create_crawl (w : World) (siteId : Nat) (crawlDate : String) :
    Nat × World :=
  match w.db.crawls.find? (fun c => c.site_id == siteId && c.crawl_date == crawlDate) with
  | some c => (c.crawl_id, w)
  | none =>
    let id := w.db.nextCrawlId
    (id, { w with db := { w.db with
        crawls := w.db.crawls ++ [{ crawl_id := id, site_id := siteId,
                                    crawl_date := crawlDate,
                                    crawl_status := "completed",
                                    total_pages := none,
                                    crawl_started_at := some w.db.clock,
                                    crawl_completed_at := none }],
        nextCrawlId := id + 1, clock := w.db.clock + 1 } })

/-- Whether a row with the same (crawl_id, url) key is already in the pages
table — the assumed uniqueness constraint behind `ON CONFLICT DO NOTHING`. -/
def pageConflicts (tbl : List PageRow) (p : PageRow) : Bool :=
  tbl.any (fun q => q.crawl_id == p.crawl_id && q.url == p.url)

/-- The batch `INSERT ... ON CONFLICT DO NOTHING` (lines 227-237): each
presented row is appended unless a row with its (crawl_id, url) already
exists, counting rows inserted earlier in the same batch. -/
def insertPagesIgnore (tbl : List PageRow) (rows : List PageRow) : List PageRow :=
  rows.foldl (fun acc p => if pageConflicts acc p then acc else acc ++ [p]) tbl

/-- `process_internal_all_csv` (lines 192-244): parse every data row into a
Page tuple, batch-insert with conflict-ignore when nonempty, and return
`len(pages_data)` — the number of rows presented, not the number stored.
Read and insert failures propagate to the caller. -/
def process_internal_all_csv (crawlId : Nat) (file : CsvFile) (w : World) :
    Except EtlErr Nat × World :=
  if file.readFail then (Except.error EtlErr.csvError, w)
  else
    let pagesData := file.rows.map (pageOfRow crawlId)
    if pagesData.isEmpty then (Except.ok pagesData.length, w)
    else if file.insertFail then (Except.error EtlErr.dbError, w)
    else (Except.ok pagesData.length,
      { w with db := { w.db with pages := insertPagesIgnore w.db.pages pagesData } })

/-- `update_crawl_summary` (lines 246-255): UPDATE the crawl row, setting
`total_pages` and `crawl_completed_at = now()`. -/
def update_crawl_summary (crawlId totalPages : Nat) (w : World) : World :=
  { w with db := { w.db with
      crawls := w.db.crawls.map (fun c =>
        if c.crawl_id == crawlId then
          { c with total_pages := some totalPages,
                   crawl_completed_at := some w.db.clock }
        else c),
      clock := w.db.clock + 1 } }

/-- `archive_processed_files` (lines 261-272): move the domain directory
under the archive tree; its own `try/except` turns any move failure into a
printed warning, so the function returns normally on every path. -/
def archive_processed_files (faults : Faults) (dateName domainName : String)
    (w : World) : World :=
  if faults.archiveFail then w
  else { w with archived := w.archived ++ [pathJoin dateName domainName] }

/-! ## Orchestrator (`process_export_directory`, lines 278-335) -/

/-- The body of the per-domain `try` block (lines 300-327): resolve site and
crawl, locate the CSV; if none, log one WARNING and continue; otherwise load
pages, stamp the summary, log an INFO event, and archive when
`config.get('archive_processed_files', True)` is truthy.
`Path(config.get('base_export_path'))` raises a `TypeError` when the key is
absent, which the per-domain boundary catches like any other error. -/
def processDomainBody (faults : Faults) (cfg : Config) (dateName crawlDate : String)
    (d : DomainDir) (w : World) : Except EtlErr Unit × World :=
  let sw := get_or_create_site w d.name none
  let cw := get_or_create_crawl sw.2 sw.1 crawlDate
  match domainCsvFiles d with
  | [] =>
    (Except.ok (), log_etl_event faults (some cw.1) (some sw.1) "WARNING"
      (String.append "No internal_all.csv found for " d.name)
      (some (pathJoin dateName d.name)) cw.2)
  | f :: _ =>
    match process_internal_all_csv cw.1 f cw.2 with
    | (Except.error e, w3) => (Except.error e, w3)
    | (Except.ok totalPages, w3) =>
      let w4 := update_crawl_summary cw.1 totalPages w3
      let w5 := log_etl_event faults (some cw.1) (some sw.1) "INFO"
        (String.append "Successfully processed pages: " (Nat.repr totalPages))
        (some f.name) w4
      if cfg.archive_processed_files.getD true then
        match cfg.base_export_path with
        | none => (Except.error EtlErr.typeError, w5)
        | some _ => (Except.ok (), archive_processed_files faults dateName d.name w5)
      else (Except.ok (), w5)

/-- One iteration of the domain loop with its `except Exception` handler
(lines 329-335): any error from the body is caught, an ERROR event is logged
inside a bare `try/except: pass`, and the loop moves on. -/
def processDomain (faults : Faults) (cfg : Config) (dateName crawlDate : String)
    (d : DomainDir) (w : World) : Except EtlErr Unit × World :=
  match processDomainBody faults cfg dateName crawlDate d w with
  | (Except.ok _, w') => (Except.ok (), w')
  | (Except.error _, w') =>
    (Except.ok (), log_etl_event faults none none "ERROR"
      (String.append "Failed to process " d.name)
      (some (pathJoin dateName d.name)) w')

/-- The `for domain_dir in domain_dirs` loop; an uncaught exception would
abort the remaining iterations, as in Python. -/
def processDomains (faults : Faults) (cfg : Config) (dateName crawlDate : String) :
    List DomainDir → World → Except EtlErr Unit × World
  | [], w => (Except.ok (), w)
  | d :: ds, w =>
    match processDomain faults cfg dateName crawlDate d w with
    | (Except.error e, w') => (Except.error e, w')
    | (Except.ok _, w') => processDomains faults cfg dateName crawlDate ds w'

/-- One iteration of the date loop (lines 288-295): derive the crawl date by
replacing underscores with hyphens, list the domain subdirectories
(`iterdir` may raise — that escapes the per-domain boundary), and process
them in listing order. -/
def processDate (faults : Faults) (cfg : Config) (de : DateEntry) (w : World) :
    Except EtlErr Unit × World :=
  if de.iterFail then (Except.error EtlErr.osError, w)
  else processDomains faults cfg de.name (underscoreToHyphen de.name)
    (de.entries.filter (fun d => d.isDir)) w

/-- The `for date_dir in sorted(date_dirs)` loop. -/
def processDates (faults : Faults) (cfg : Config) :
    List DateEntry → World → Except EtlErr Unit × World
  | [], w => (Except.ok (), w)
  | de :: des, w =>
    match processDate faults cfg de w with
    | (Except.error e, w') => (Except.error e, w')
    | (Except.ok _, w') => processDates faults cfg des w'

/-- `process_export_directory` (lines 278-335): filter the root's entries to
directories with a 10-character name, return early when none, otherwise
process them in ascending lexical order. -/
def process_export_directory (faults : Faults) (cfg : Config) (root : ExportRoot)
    (w : World) : Except EtlErr Unit × World :=
  if root.iterFail then (Except.error EtlErr.osError, w)
  else
    let dateDirs := dateDirsOf root.entries
    if dateDirs.isEmpty then (Except.ok (), w)
    else processDates faults cfg (sortDates dateDirs) w

/-- The body of `main`'s `with DatabaseConnection(...)` block (lines
353-360): `config['base_export_path']` raises a `KeyError` if absent;
a missing export root raises `SystemExit` via `sys.exit(1)`; otherwise the
export directory is processed. -/
def mainBody (faults : Faults) (cfg : Config) (root : ExportRoot) (w : World) :
    Except EtlErr Unit × World :=
  match cfg.base_export_path with
  | none => (Except.error EtlErr.keyError, w)
  | some _ =>
    if root.pathExists then process_export_directory faults cfg root w
    else (Except.error EtlErr.sysExit, w)

/-! ## Transactional session (`DatabaseConnection.__exit__`, lines 102-111) -/

/-- The observable outcome of one `with DatabaseConnection(...)` session:
the database state visible after the connection is closed, the number of
commits and rollbacks issued, whether the connection was closed, and the
exception (if any) propagating out of the block. -/
structure SessionOutcome where
  committedDb : DB
  finalWorld : World
  commits : Nat
  rollbacks : Nat
  connClosed : Bool
  runError : Option EtlErr
deriving Repr, DecidableEq

/-- `__exit__` semantics around a block body: on normal completion commit
once, on any exception roll the whole transaction back (the committed state
reverts to the state at `__enter__`), and close the connection either way.
Filesystem effects (`archived`) are outside the transaction and survive a
rollback. -/
def runWithConnection (body : World → Except EtlErr Unit × World) (init : World) :
    SessionOutcome :=
  match body init with
  | (Except.ok _, w) =>
    { committedDb := w.db, finalWorld := w, commits := 1, rollbacks := 0,
      connClosed := true, runError := none }
  | (Except.error e, w) =>
    { committedDb := init.db, finalWorld := w, commits := 0, rollbacks := 1,
      connClosed := true, runError := some e }

/-! ## Spec-side definitions for refinement comparison -/

/-- Written from the spec's words for C5 only: a "fixed-width date token
(10 characters, underscore-separated)" — ten characters long and
underscore-separated, i.e. containing at least one underscore. -/
def underscoreSeparatedDateToken (s : String) : Bool :=
  s.length == 10 && s.data.any (fun c => c == '_')

/-! ## Lemmas -/

theorem foldl_digits_eq (v : Char → Nat) :
    ∀ (l : List Char) (a : Nat),
      l.foldl (fun acc c => 10 * acc + v c) a
        = Nat.ofDigits 10 ((l.map v).reverse) + a * 10 ^ l.length := by
  intro l
  induction l with
  | nil => intro a; simp [Nat.ofDigits]
  | cons c cs ih =>
    intro a
    have h := ih (10 * a + v c)
    simp only [List.foldl_cons, h, List.map_cons, List.reverse_cons,
      Nat.ofDigits_append, List.length_reverse, List.length_map,
      Nat.ofDigits_singleton, List.length_cons]
    ring

/-- The Python `int` of a digit string equals its standard decimal value. -/
theorem pyIntOfDigits_eq_decimalValue (s : String) :
    pyIntOfDigits s = decimalValue s := by
  have h := foldl_digits_eq (fun c => c.toNat - 48) s.data 0
  simpa [pyIntOfDigits, decimalValue] using h

theorem string_ne_empty_iff_data (s : String) : s ≠ "" ↔ s.data ≠ [] := by
  constructor
  · intro h hd
    exact h (String.ext hd)
  · intro h he
    exact h (by simp [he])

/-! ## Claims -/

/-- C1: For every CSV data row and every numeric column (Status Code,
Title 1 Length, Meta Description 1 Length, H1-1 length, Word Count,
Response Time, Size (bytes)), the ingester stores the integer value of the
field exactly when the raw string consists entirely of decimal digit
characters (and is nonempty), and stores null — not zero, and without
raising an error — for every other field value, including empty, negative,
fractional, otherwise non-numeric strings, and missing columns (which
default to the empty string). -/
theorem C1_numeric_coercion (cid : Nat) (row : Row) (col : String) :
    ((pageOfRow cid row).status_code = coerceNumField row "Status Code"
      ∧ (pageOfRow cid row).title_length = coerceNumField row "Title 1 Length"
      ∧ (pageOfRow cid row).meta_description_length
          = coerceNumField row "Meta Description 1 Length"
      ∧ (pageOfRow cid row).h1_count = coerceNumField row "H1-1 length"
      ∧ (pageOfRow cid row).word_count = coerceNumField row "Word Count"
      ∧ (pageOfRow cid row).response_time_ms = coerceNumField row "Response Time"
      ∧ (pageOfRow cid row).size_bytes = coerceNumField row "Size (bytes)")
    ∧ (row.find? (fun p => p.1 == col) = none → coerceNumField row col = none)
    ∧ (∀ s, rowGetD row col "" = s →
        ((s.data ≠ [] ∧ ∀ c ∈ s.data, c.isDigit) →
            coerceNumField row col = some (decimalValue s))
        ∧ (¬ (s.data ≠ [] ∧ ∀ c ∈ s.data, c.isDigit) →
            coerceNumField row col = none)) := by
  refine ⟨⟨rfl, rfl, rfl, rfl, rfl, rfl, rfl⟩, ?_, ?_⟩
  · intro h
    simp [coerceNumField, rowGetD, h, pyIsDigit]
  · intro s hs
    have hco : coerceNumField row col
        = if pyIsDigit s then some (pyIntOfDigits s) else none := by
      simp only [coerceNumField, hs]
    constructor
    · rintro ⟨hne, hall⟩
      have hd : pyIsDigit s = true := by
        simp only [pyIsDigit, Bool.and_eq_true, Bool.not_eq_true',
          List.isEmpty_eq_false_iff_exists_mem, List.all_eq_true]
        rcases List.exists_mem_of_ne_nil s.data hne with ⟨c, hc⟩
        exact ⟨⟨c, hc⟩, hall⟩
      rw [hco, hd, if_pos rfl, pyIntOfDigits_eq_decimalValue]
    · intro h
      cases hpy : pyIsDigit s with
      | false => simp [hco, hpy]
      | true =>
        exfalso
        apply h
        simp only [pyIsDigit, Bool.and_eq_true, Bool.not_eq_true',
          List.isEmpty_eq_false_iff_exists_mem, List.all_eq_true] at hpy
        rcases hpy with ⟨⟨c, hc⟩, hall⟩
        exact ⟨List.ne_nil_of_mem hc, hall⟩

/-- Witness for C1: the coercion at concrete fields — `"42"` parses to 42,
while empty, negative, fractional, and missing fields all store null. -/
theorem C1_numeric_coercion_witness :
    coerceNumField [("Status Code", "42")] "Status Code" = some 42
      ∧ coerceNumField [("Status Code", "")] "Status Code" = none
      ∧ coerceNumField [("Status Code", "-3")] "Status Code" = none
      ∧ coerceNumField [("Status Code", "3.5")] "Status Code" = none
      ∧ coerceNumField [("Title 1 Length", "7")] "Status Code" = none := by
  refine ⟨?_, ?_, ?_, ?_, ?_⟩
  · exact (((C1_numeric_coercion 0 [("Status Code", "42")] "Status Code").2.2
      "42" rfl).1 (by decide)).trans (by decide)
  · exact ((C1_numeric_coercion 0 [("Status Code", "")] "Status Code").2.2
      "" rfl).2 (by decide)
  · exact ((C1_numeric_coercion 0 [("Status Code", "-3")] "Status Code").2.2
      "-3" rfl).2 (by decide)
  · exact ((C1_numeric_coercion 0 [("Status Code", "3.5")] "Status Code").2.2
      "3.5" rfl).2 (by decide)
  · exact (C1_numeric_coercion 0 [("Title 1 Length", "7")] "Status Code").2.1
      (by decide)

/-- C8: every failure raised while appending the EtlLogEvent row is caught
and discarded: `log_etl_event` returns normally on every path.  When the
underlying INSERT fails the database is left unchanged; when it succeeds
exactly the one event row is appended.  In both cases the caller observes a
normal return, so a logging failure never masks or alters the outcome of
the operation being logged. -/
theorem C8_log_failure_swallowed (faults : Faults) (cid sid : Option Nat)
    (lvl msg : String) (fp : Option String) (w : World) :
    (faults.logFail = true →
        (tryInsertLogRow faults cid sid lvl msg fp w).1
            = Except.error EtlErr.dbError
          ∧ log_etl_event faults cid sid lvl msg fp w = w)
    ∧ (faults.logFail = false →
        log_etl_event faults cid sid lvl msg fp w
          = { w with db := { w.db with etl_logs := w.db.etl_logs ++
              [{ crawl_id := cid, site_id := sid, log_level := lvl,
                 message := msg, file_path := fp }] } }) := by
  constructor
  · intro h
    simp [log_etl_event, tryInsertLogRow, h]
  · intro h
    simp [log_etl_event, tryInsertLogRow, h]

/-- Witness for C8: with the log fault on, the raw INSERT raises and
`log_etl_event` still returns the world unchanged. -/
theorem C8_log_failure_swallowed_witness :
    log_etl_event ⟨true, false⟩ none none "ERROR" "boom" none
        ⟨⟨[], [], [], [], 1, 1, 0⟩, []⟩
      = ⟨⟨[], [], [], [], 1, 1, 0⟩, []⟩ :=
  ((C8_log_failure_swallowed ⟨true, false⟩ none none "ERROR" "boom" none
    ⟨⟨[], [], [], [], 1, 1, 0⟩, []⟩).1 rfl).2

/-- The row inserted by `get_or_create_site` when the domain is absent. -/
def newSiteRow (w : World) (domain : String) (label : Option String) : SiteRow :=
  { site_id := w.db.nextSiteId, domain := domain,
    label := label.getD domain, status := "active" }

/-- The world after `get_or_create_site` inserts a fresh site. -/
def worldAfterNewSite (w : World) (domain : String) (label : Option String) : World :=
  { w with db := { w.db with
      sites := w.db.sites ++ [newSiteRow w domain label],
      nextSiteId := w.db.nextSiteId + 1 } }

theorem get_or_create_site_found (w : World) (domain : String)
    (label : Option String) (s : SiteRow)
    (h : w.db.sites.find? (fun s => s.domain == domain) = some s) :
    get_or_create_site w domain label = (s.site_id, w) := by
  simp [get_or_create_site, h]

theorem get_or_create_site_fresh (w : World) (domain : String)
    (label : Option String)
    (h : w.db.sites.find? (fun s => s.domain == domain) = none) :
    get_or_create_site w domain label
      = (w.db.nextSiteId, worldAfterNewSite w domain label) := by
  simp [get_or_create_site, h, worldAfterNewSite, newSiteRow]

theorem find?_worldAfterNewSite (w : World) (domain : String)
    (label : Option String)
    (h : w.db.sites.find? (fun s => s.domain == domain) = none) :
    (worldAfterNewSite w domain label).db.sites.find? (fun s => s.domain == domain)
      = some (newSiteRow w domain label) := by
  simp [worldAfterNewSite, List.find?_append, h, newSiteRow, List.find?]

/-- The row inserted by `get_or_create_crawl` when the key is absent. -/
def newCrawlRow (w : World) (siteId : Nat) (crawlDate : String) : CrawlRow :=
  { crawl_id := w.db.nextCrawlId, site_id := siteId, crawl_date := crawlDate,
    crawl_status := "completed", total_pages := none,
    crawl_started_at := some w.db.clock, crawl_completed_at := none }

/-- The world after `get_or_create_crawl` inserts a fresh crawl. -/
def worldAfterNewCrawl (w : World) (siteId : Nat) (crawlDate : String) : World :=
  { w with db := { w.db with
      crawls := w.db.crawls ++ [newCrawlRow w siteId crawlDate],
      nextCrawlId := w.db.nextCrawlId + 1, clock := w.db.clock + 1 } }

theorem get_or_create_crawl_found (w : World) (siteId : Nat) (crawlDate : String)
    (c : CrawlRow)
    (h : w.db.crawls.find? (fun c => c.site_id == siteId && c.crawl_date == crawlDate)
      = some c) :
    get_or_create_crawl w siteId crawlDate = (c.crawl_id, w) := by
  simp [get_or_create_crawl, h]

theorem get_or_create_crawl_fresh (w : World) (siteId : Nat) (crawlDate : String)
    (h : w.db.crawls.find? (fun c => c.site_id == siteId && c.crawl_date == crawlDate)
      = none) :
    get_or_create_crawl w siteId crawlDate
      = (w.db.nextCrawlId, worldAfterNewCrawl w siteId crawlDate) := by
  simp [get_or_create_crawl, h, worldAfterNewCrawl, newCrawlRow]

theorem find?_worldAfterNewCrawl (w : World) (siteId : Nat) (crawlDate : String)
    (h : w.db.crawls.find? (fun c => c.site_id == siteId && c.crawl_date == crawlDate)
      = none) :
    (worldAfterNewCrawl w siteId crawlDate).db.crawls.find?
        (fun c => c.site_id == siteId && c.crawl_date == crawlDate)
      = some (newCrawlRow w siteId crawlDate) := by
  simp [worldAfterNewCrawl, List.find?_append, h, newCrawlRow, List.find?]

/-- `get_or_create_site` touches only the sites table and its counter. -/
theorem get_or_create_site_preserves (w : World) (domain : String)
    (label : Option String) :
    (get_or_create_site w domain label).2.db.etl_logs = w.db.etl_logs
    ∧ (get_or_create_site w domain label).2.db.pages = w.db.pages
    ∧ (get_or_create_site w domain label).2.db.crawls = w.db.crawls
    ∧ (get_or_create_site w domain label).2.archived = w.archived
    ∧ (get_or_create_site w domain label).2.db.clock = w.db.clock
    ∧ (get_or_create_site w domain label).2.db.nextCrawlId = w.db.nextCrawlId := by
  cases hfind : w.db.sites.find? (fun s => s.domain == domain) with
  | some s =>
    rw [get_or_create_site_found w domain label s hfind]
    exact ⟨rfl, rfl, rfl, rfl, rfl, rfl⟩
  | none =>
    rw [get_or_create_site_fresh w domain label hfind]
    exact ⟨rfl, rfl, rfl, rfl, rfl, rfl⟩

/-- `get_or_create_crawl` touches only the crawls table, its counter, and
the clock. -/
theorem get_or_create_crawl_preserves (w : World) (siteId : Nat)
    (crawlDate : String) :
    (get_or_create_crawl w siteId crawlDate).2.db.etl_logs = w.db.etl_logs
    ∧ (get_or_create_crawl w siteId crawlDate).2.db.pages = w.db.pages
    ∧ (get_or_create_crawl w siteId crawlDate).2.db.sites = w.db.sites
    ∧ (get_or_create_crawl w siteId crawlDate).2.archived = w.archived := by
  cases hfind : w.db.crawls.find?
      (fun c => c.site_id == siteId && c.crawl_date == crawlDate) with
  | some c =>
    rw [get_or_create_crawl_found w siteId crawlDate c hfind]
    exact ⟨rfl, rfl, rfl, rfl⟩
  | none =>
    rw [get_or_create_crawl_fresh w siteId crawlDate hfind]
    exact ⟨rfl, rfl, rfl, rfl⟩

/-- With the log fault off, `log_etl_event` appends exactly its one row. -/
theorem log_etl_event_ok (faults : Faults) (cid sid : Option Nat)
    (lvl msg : String) (fp : Option String) (w : World)
    (h : faults.logFail = false) :
    log_etl_event faults cid sid lvl msg fp w
      = { w with db := { w.db with etl_logs := w.db.etl_logs ++
          [{ crawl_id := cid, site_id := sid, log_level := lvl,
             message := msg, file_path := fp }] } } := by
  simp [log_etl_event, tryInsertLogRow, h]

/-- With the log fault on, `log_etl_event` leaves the world unchanged. -/
theorem log_etl_event_fail (faults : Faults) (cid sid : Option Nat)
    (lvl msg : String) (fp : Option String) (w : World)
    (h : faults.logFail = true) :
    log_etl_event faults cid sid lvl msg fp w = w := by
  simp [log_etl_event, tryInsertLogRow, h]

/-- `log_etl_event` touches at most the etl_logs table. -/
theorem log_etl_event_preserves (faults : Faults) (cid sid : Option Nat)
    (lvl msg : String) (fp : Option String) (w : World) :
    (log_etl_event faults cid sid lvl msg fp w).db.pages = w.db.pages
    ∧ (log_etl_event faults cid sid lvl msg fp w).db.sites = w.db.sites
    ∧ (log_etl_event faults cid sid lvl msg fp w).db.crawls = w.db.crawls
    ∧ (log_etl_event faults cid sid lvl msg fp w).archived = w.archived := by
  cases h : faults.logFail
  · rw [log_etl_event_ok faults cid sid lvl msg fp w h]
    exact ⟨rfl, rfl, rfl, rfl⟩
  · rw [log_etl_event_fail faults cid sid lvl msg fp w h]
    exact ⟨rfl, rfl, rfl, rfl⟩

/-- `process_internal_all_csv` touches at most the pages table. -/
theorem process_internal_all_csv_preserves (crawlId : Nat) (f : CsvFile)
    (w : World) :
    (process_internal_all_csv crawlId f w).2.db.etl_logs = w.db.etl_logs
    ∧ (process_internal_all_csv crawlId f w).2.db.sites = w.db.sites
    ∧ (process_internal_all_csv crawlId f w).2.db.crawls = w.db.crawls
    ∧ (process_internal_all_csv crawlId f w).2.archived = w.archived
    ∧ (process_internal_all_csv crawlId f w).2.db.clock = w.db.clock := by
  cases hr : f.readFail <;>
    cases hE : (f.rows.map (pageOfRow crawlId)).isEmpty <;>
      cases hi : f.insertFail <;>
        simp [process_internal_all_csv, hr, hE, hi]

/-- `update_crawl_summary` touches at most the crawls table and the clock. -/
theorem update_crawl_summary_preserves (crawlId totalPages : Nat) (w : World) :
    (update_crawl_summary crawlId totalPages w).db.etl_logs = w.db.etl_logs
    ∧ (update_crawl_summary crawlId totalPages w).db.sites = w.db.sites
    ∧ (update_crawl_summary crawlId totalPages w).db.pages = w.db.pages
    ∧ (update_crawl_summary crawlId totalPages w).archived = w.archived :=
  ⟨rfl, rfl, rfl, rfl⟩

/-- C4: calling `get_or_create_site` twice with the same domain, or
`get_or_create_crawl` twice with the same (site_id, crawl_date), returns
the same identifier both times; when the key was initially absent the first
call performs exactly one insert, when it was present the first call
performs none, and the second call never inserts (it leaves the world
exactly as the first call left it). -/
theorem C4_get_or_create_idempotent (w : World) (domain : String)
    (label : Option String) (siteId : Nat) (crawlDate : String) :
    ((get_or_create_site (get_or_create_site w domain label).2 domain label).1
        = (get_or_create_site w domain label).1
      ∧ (get_or_create_site (get_or_create_site w domain label).2 domain label).2
        = (get_or_create_site w domain label).2
      ∧ (w.db.sites.find? (fun s => s.domain == domain) = none →
          (get_or_create_site w domain label).2.db.sites.length
            = w.db.sites.length + 1)
      ∧ (∀ s, w.db.sites.find? (fun s => s.domain == domain) = some s →
          (get_or_create_site w domain label).2 = w))
    ∧ ((get_or_create_crawl (get_or_create_crawl w siteId crawlDate).2 siteId
          crawlDate).1 = (get_or_create_crawl w siteId crawlDate).1
      ∧ (get_or_create_crawl (get_or_create_crawl w siteId crawlDate).2 siteId
          crawlDate).2 = (get_or_create_crawl w siteId crawlDate).2
      ∧ (w.db.crawls.find?
            (fun c => c.site_id == siteId && c.crawl_date == crawlDate) = none →
          (get_or_create_crawl w siteId crawlDate).2.db.crawls.length
            = w.db.crawls.length + 1)
      ∧ (∀ c, w.db.crawls.find?
            (fun c => c.site_id == siteId && c.crawl_date == crawlDate) = some c →
          (get_or_create_crawl w siteId crawlDate).2 = w)) := by
  constructor
  · cases hfind : w.db.sites.find? (fun s => s.domain == domain) with
    | some s =>
      rw [get_or_create_site_found w domain label s hfind]
      refine ⟨?_, ?_, ?_, ?_⟩
      · rw [get_or_create_site_found w domain label s hfind]
      · rw [get_or_create_site_found w domain label s hfind]
      · intro h; exact Option.noConfusion h
      · intro s' _; rfl
    | none =>
      rw [get_or_create_site_fresh w domain label hfind]
      have h2 := get_or_create_site_found (worldAfterNewSite w domain label)
        domain label (newSiteRow w domain label)
        (find?_worldAfterNewSite w domain label hfind)
      refine ⟨?_, ?_, ?_, ?_⟩
      · rw [h2]; rfl
      · rw [h2]
      · intro _; simp [worldAfterNewSite]
      · intro s' h; exact Option.noConfusion h
  · cases hfind : w.db.crawls.find?
        (fun c => c.site_id == siteId && c.crawl_date == crawlDate) with
    | some c =>
      rw [get_or_create_crawl_found w siteId crawlDate c hfind]
      refine ⟨?_, ?_, ?_, ?_⟩
      · rw [get_or_create_crawl_found w siteId crawlDate c hfind]
      · rw [get_or_create_crawl_found w siteId crawlDate c hfind]
      · intro h; exact Option.noConfusion h
      · intro c' _; rfl
    | none =>
      rw [get_or_create_crawl_fresh w siteId crawlDate hfind]
      have h2 := get_or_create_crawl_found (worldAfterNewCrawl w siteId crawlDate)
        siteId crawlDate (newCrawlRow w siteId crawlDate)
        (find?_worldAfterNewCrawl w siteId crawlDate hfind)
      refine ⟨?_, ?_, ?_, ?_⟩
      · rw [h2]; rfl
      · rw [h2]
      · intro _; simp [worldAfterNewCrawl]
      · intro c' h; exact Option.noConfusion h

/-- Witness for C4: on an empty database the first call inserts the one
site row and the second call returns the same id without inserting. -/
theorem C4_get_or_create_idempotent_witness :
    ((get_or_create_site (get_or_create_site ⟨⟨[], [], [], [], 1, 1, 0⟩, []⟩
        "example.com" none).2 "example.com" none).1
      = (get_or_create_site ⟨⟨[], [], [], [], 1, 1, 0⟩, []⟩ "example.com" none).1)
    ∧ (get_or_create_site ⟨⟨[], [], [], [], 1, 1, 0⟩, []⟩
        "example.com" none).2.db.sites.length = 1 :=
  ⟨(C4_get_or_create_idempotent ⟨⟨[], [], [], [], 1, 1, 0⟩, []⟩ "example.com"
      none 0 "2024-01-15").1.1,
   (C4_get_or_create_idempotent ⟨⟨[], [], [], [], 1, 1, 0⟩, []⟩ "example.com"
      none 0 "2024-01-15").1.2.2.1 (by decide)⟩

/-- C3: for every domain directory whose processing raises an error — any
error at all, covering parse and database failures — the orchestrator's
per-domain boundary catches it (the iteration always returns normally),
logs an ERROR event best-effort (appended when the event INSERT works,
silently skipped when it also fails), and the loop goes on to process the
remaining domain directories; no per-domain error aborts the run. -/
theorem C3_domain_errors_isolated (faults : Faults) (cfg : Config)
    (dateName crawlDate : String) (d : DomainDir) (w : World) :
    (processDomain faults cfg dateName crawlDate d w).1 = Except.ok ()
    ∧ (∀ e w', processDomainBody faults cfg dateName crawlDate d w
          = (Except.error e, w') →
        (faults.logFail = false →
          (processDomain faults cfg dateName crawlDate d w).2.db.etl_logs
            = w'.db.etl_logs ++ [{ crawl_id := none, site_id := none,
                                   log_level := "ERROR",
                                   message := String.append "Failed to process " d.name,
                                   file_path := some (pathJoin dateName d.name) }])
        ∧ (faults.logFail = true →
          (processDomain faults cfg dateName crawlDate d w).2 = w'))
    ∧ (∀ ds, processDomains faults cfg dateName crawlDate (d :: ds) w
        = processDomains faults cfg dateName crawlDate ds
            (processDomain faults cfg dateName crawlDate d w).2) := by
  cases hb : processDomainBody faults cfg dateName crawlDate d w with
  | mk r w2 =>
    cases r with
    | ok a =>
      refine ⟨by simp [processDomain, hb], ?_, ?_⟩
      · intro e w' h
        simp at h
      · intro ds
        simp [processDomains, processDomain, hb]
    | error e =>
      refine ⟨by simp [processDomain, hb], ?_, ?_⟩
      · intro e' w' h
        have hw : w2 = w' := congrArg Prod.snd h
        constructor
        · intro hlf
          simp only [processDomain, hb,
            log_etl_event_ok faults none none "ERROR"
              (String.append "Failed to process " d.name)
              (some (pathJoin dateName d.name)) w2 hlf]
          rw [← hw]
        · intro hlf
          simp only [processDomain, hb,
            log_etl_event_fail faults none none "ERROR"
              (String.append "Failed to process " d.name)
              (some (pathJoin dateName d.name)) w2 hlf]
          exact hw.symm ▸ rfl
      · intro ds
        simp [processDomains, processDomain, hb]

/-- Witness for C3: a domain whose CSV read fails is caught, the run goes
on (the iteration returns `ok`), and exactly the one ERROR event is
recorded. -/
theorem C3_domain_errors_isolated_witness :
    (processDomain ⟨false, false⟩ ⟨some false, some "exports"⟩ "2024_01_15"
        "2024-01-15" ⟨"bad.com", true, [⟨"bad_internal_all.csv", true, false, []⟩]⟩
        ⟨⟨[], [], [], [], 1, 1, 0⟩, []⟩).1 = Except.ok ()
    ∧ (processDomain ⟨false, false⟩ ⟨some false, some "exports"⟩ "2024_01_15"
        "2024-01-15" ⟨"bad.com", true, [⟨"bad_internal_all.csv", true, false, []⟩]⟩
        ⟨⟨[], [], [], [], 1, 1, 0⟩, []⟩).2.db.etl_logs
      = [{ crawl_id := none, site_id := none, log_level := "ERROR",
           message := "Failed to process bad.com",
           file_path := some "2024_01_15/bad.com" }] := by
  constructor
  · exact (C3_domain_errors_isolated ⟨false, false⟩ ⟨some false, some "exports"⟩
      "2024_01_15" "2024-01-15"
      ⟨"bad.com", true, [⟨"bad_internal_all.csv", true, false, []⟩]⟩
      ⟨⟨[], [], [], [], 1, 1, 0⟩, []⟩).1
  · have h := (((C3_domain_errors_isolated ⟨false, false⟩
      ⟨some false, some "exports"⟩ "2024_01_15" "2024-01-15"
      ⟨"bad.com", true, [⟨"bad_internal_all.csv", true, false, []⟩]⟩
      ⟨⟨[], [], [], [], 1, 1, 0⟩, []⟩).2.1 EtlErr.csvError
      ⟨⟨[⟨1, "bad.com", "bad.com", "active"⟩],
        [⟨1, 1, "2024-01-15", "completed", none, some 0, none⟩],
        [], [], 2, 2, 1⟩, []⟩ (by decide)).1 rfl)
    rw [h]
    decide

/-- C7: for every domain directory with no file matching the
`*internal_all*.csv` glob, the iteration returns normally (the run is never
aborted), no pages are written, nothing is archived, exactly one WARNING
event is appended (when the event INSERT itself works), and the loop
continues with the remaining sibling domain directories. -/
theorem C7_missing_csv_warning (faults : Faults) (cfg : Config)
    (dateName crawlDate : String) (d : DomainDir) (w : World)
    (hno : domainCsvFiles d = []) :
    (processDomain faults cfg dateName crawlDate d w).1 = Except.ok ()
    ∧ (processDomain faults cfg dateName crawlDate d w).2.db.pages = w.db.pages
    ∧ (processDomain faults cfg dateName crawlDate d w).2.archived = w.archived
    ∧ (faults.logFail = false →
        (processDomain faults cfg dateName crawlDate d w).2.db.etl_logs
          = w.db.etl_logs
            ++ [{ crawl_id := some (get_or_create_crawl
                    (get_or_create_site w d.name none).2
                    (get_or_create_site w d.name none).1 crawlDate).1,
                  site_id := some (get_or_create_site w d.name none).1,
                  log_level := "WARNING",
                  message := String.append "No internal_all.csv found for " d.name,
                  file_path := some (pathJoin dateName d.name) }])
    ∧ (∀ ds, processDomains faults cfg dateName crawlDate (d :: ds) w
        = processDomains faults cfg dateName crawlDate ds
            (processDomain faults cfg dateName crawlDate d w).2) := by
  refine ⟨?_, ?_, ?_, ?_, ?_⟩
  · simp [processDomain, processDomainBody, hno]
  · simp only [processDomain, processDomainBody, hno]
    exact ((log_etl_event_preserves _ _ _ _ _ _ _).1).trans
      (((get_or_create_crawl_preserves _ _ _).2.1).trans
        ((get_or_create_site_preserves _ _ _).2.1))
  · simp only [processDomain, processDomainBody, hno]
    exact ((log_etl_event_preserves _ _ _ _ _ _ _).2.2.2).trans
      (((get_or_create_crawl_preserves _ _ _).2.2.2).trans
        ((get_or_create_site_preserves _ _ _).2.2.2.1))
  · intro hlf
    simp only [processDomain, processDomainBody, hno,
      log_etl_event_ok _ _ _ _ _ _ _ hlf]
    rw [(get_or_create_crawl_preserves _ _ _).1,
      (get_or_create_site_preserves _ _ _).1]
  · intro ds
    simp [processDomains, processDomain, processDomainBody, hno]

/-- Witness for C7: a concrete domain directory with no matching CSV yields
a normal return and exactly the one WARNING row. -/
theorem C7_missing_csv_warning_witness :
    (processDomain ⟨false, false⟩ ⟨some false, some "exports"⟩ "2024_01_15"
        "2024-01-15" ⟨"empty.com", true, [⟨"notes.txt", false, false, []⟩]⟩
        ⟨⟨[], [], [], [], 1, 1, 0⟩, []⟩).1 = Except.ok ()
    ∧ (processDomain ⟨false, false⟩ ⟨some false, some "exports"⟩ "2024_01_15"
        "2024-01-15" ⟨"empty.com", true, [⟨"notes.txt", false, false, []⟩]⟩
        ⟨⟨[], [], [], [], 1, 1, 0⟩, []⟩).2.db.etl_logs
      = [{ crawl_id := some 1, site_id := some 1, log_level := "WARNING",
           message := "No internal_all.csv found for empty.com",
           file_path := some "2024_01_15/empty.com" }] := by
  constructor
  · exact (C7_missing_csv_warning ⟨false, false⟩ ⟨some false, some "exports"⟩
      "2024_01_15" "2024-01-15" ⟨"empty.com", true, [⟨"notes.txt", false, false, []⟩]⟩
      ⟨⟨[], [], [], [], 1, 1, 0⟩, []⟩ (by decide)).1
  · have h := (C7_missing_csv_warning ⟨false, false⟩ ⟨some false, some "exports"⟩
      "2024_01_15" "2024-01-15" ⟨"empty.com", true, [⟨"notes.txt", false, false, []⟩]⟩
      ⟨⟨[], [], [], [], 1, 1, 0⟩, []⟩ (by decide)).2.2.2.1 rfl
    rw [h]
    decide

/-- C10: entity resolution runs before the CSV file is located, so for a
domain directory with no matching CSV — on a database where the domain and
the would-be crawl key are absent — the Site row and the Crawl row are
nonetheless created, the Crawl with status `'completed'` and with
`total_pages` and `crawl_completed_at` never set, and the WARNING event
that follows references exactly those freshly created identifiers. -/
theorem C10_entities_created_before_warning (faults : Faults) (cfg : Config)
    (dateName crawlDate : String) (d : DomainDir) (w : World)
    (hno : domainCsvFiles d = [])
    (hsite : w.db.sites.find? (fun s => s.domain == d.name) = none)
    (hcrawl : w.db.crawls.find?
        (fun c => c.site_id == w.db.nextSiteId && c.crawl_date == crawlDate)
      = none) :
    (processDomain faults cfg dateName crawlDate d w).2.db.sites
        = w.db.sites ++ [{ site_id := w.db.nextSiteId, domain := d.name,
                           label := d.name, status := "active" }]
    ∧ (processDomain faults cfg dateName crawlDate d w).2.db.crawls
        = w.db.crawls ++ [{ crawl_id := w.db.nextCrawlId,
                            site_id := w.db.nextSiteId, crawl_date := crawlDate,
                            crawl_status := "completed", total_pages := none,
                            crawl_started_at := some w.db.clock,
                            crawl_completed_at := none }]
    ∧ (faults.logFail = false →
        (processDomain faults cfg dateName crawlDate d w).2.db.etl_logs
          = w.db.etl_logs ++ [{ crawl_id := some w.db.nextCrawlId,
                                site_id := some w.db.nextSiteId,
                                log_level := "WARNING",
                                message := String.append
                                  "No internal_all.csv found for " d.name,
                                file_path := some (pathJoin dateName d.name) }]) := by
  have hs := get_or_create_site_fresh w d.name none hsite
  have hc' : (worldAfterNewSite w d.name none).db.crawls.find?
      (fun c => c.site_id == w.db.nextSiteId && c.crawl_date == crawlDate)
        = none := by
    simpa [worldAfterNewSite] using hcrawl
  have hc := get_or_create_crawl_fresh (worldAfterNewSite w d.name none)
    w.db.nextSiteId crawlDate hc'
  refine ⟨?_, ?_, ?_⟩
  · simp only [processDomain, processDomainBody, hno, hs, hc]
    rw [(log_etl_event_preserves _ _ _ _ _ _ _).2.1]
    simp [worldAfterNewCrawl, worldAfterNewSite, newSiteRow]
  · simp only [processDomain, processDomainBody, hno, hs, hc]
    rw [(log_etl_event_preserves _ _ _ _ _ _ _).2.2.1]
    simp [worldAfterNewCrawl, worldAfterNewSite, newCrawlRow]
  · intro hlf
    simp only [processDomain, processDomainBody, hno, hs, hc,
      log_etl_event_ok _ _ _ _ _ _ _ hlf]
    simp [worldAfterNewCrawl, worldAfterNewSite]

/-- Witness for C10: on an empty database, a domain directory without a
matching CSV still yields one Site row and one Crawl row with
`total_pages = none` and `crawl_completed_at = none`, plus the WARNING
event referencing their ids. -/
theorem C10_entities_created_before_warning_witness :
    (processDomain ⟨false, false⟩ ⟨some false, some "exports"⟩ "2024_01_15"
        "2024-01-15" ⟨"empty.org", true, []⟩
        ⟨⟨[], [], [], [], 1, 1, 0⟩, []⟩).2.db.sites
      = [{ site_id := 1, domain := "empty.org", label := "empty.org",
           status := "active" }]
    ∧ (processDomain ⟨false, false⟩ ⟨some false, some "exports"⟩ "2024_01_15"
        "2024-01-15" ⟨"empty.org", true, []⟩
        ⟨⟨[], [], [], [], 1, 1, 0⟩, []⟩).2.db.crawls
      = [{ crawl_id := 1, site_id := 1, crawl_date := "2024-01-15",
           crawl_status := "completed", total_pages := none,
           crawl_started_at := some 0, crawl_completed_at := none }]
    ∧ (processDomain ⟨false, false⟩ ⟨some false, some "exports"⟩ "2024_01_15"
        "2024-01-15" ⟨"empty.org", true, []⟩
        ⟨⟨[], [], [], [], 1, 1, 0⟩, []⟩).2.db.etl_logs
      = [{ crawl_id := some 1, site_id := some 1, log_level := "WARNING",
           message := "No internal_all.csv found for empty.org",
           file_path := some "2024_01_15/empty.org" }] := by
  have h := C10_entities_created_before_warning ⟨false, false⟩
    ⟨some false, some "exports"⟩ "2024_01_15" "2024-01-15"
    ⟨"empty.org", true, []⟩ ⟨⟨[], [], [], [], 1, 1, 0⟩, []⟩
    (by decide) (by decide) (by decide)
  refine ⟨?_, ?_, ?_⟩
  · rw [h.1]; decide
  · rw [h.2.1]; decide
  · rw [h.2.2 rfl]; decide

/-- The conflict-ignoring batch insert adds at most as many rows as were
presented. -/
theorem insertPagesIgnore_length : ∀ (rows tbl : List PageRow),
    (insertPagesIgnore tbl rows).length ≤ tbl.length + rows.length := by
  intro rows
  induction rows with
  | nil => intro tbl; simp [insertPagesIgnore]
  | cons p ps ih =>
    intro tbl
    have hstep : insertPagesIgnore tbl (p :: ps)
        = insertPagesIgnore (if pageConflicts tbl p then tbl else tbl ++ [p]) ps :=
      rfl
    rw [hstep]
    by_cases h : pageConflicts tbl p = true
    · rw [if_pos h]
      have := ih tbl
      simp only [List.length_cons]
      omega
    · rw [if_neg h]
      have := ih (tbl ++ [p])
      simp only [List.length_append, List.length_singleton] at this
      simp only [List.length_cons]
      omega

/-- After `update_crawl_summary`, every crawl row carrying the updated id
has `total_pages` set to the given count. -/
theorem update_crawl_summary_total (crawlId n : Nat) (w : World) :
    ∀ c ∈ (update_crawl_summary crawlId n w).db.crawls,
      c.crawl_id = crawlId → c.total_pages = some n := by
  intro c hc hid
  simp only [update_crawl_summary, List.mem_map] at hc
  obtain ⟨c0, hc0, hceq⟩ := hc
  cases h : (c0.crawl_id == crawlId) with
  | true =>
    rw [← hceq]
    simp [h]
  | false =>
    rw [← hceq] at hid
    rw [if_neg (by simp [h])] at hid
    exact absurd hid (by simpa using h)

/-- C6: for every successfully ingested CSV file, the loader returns the
count of records presented to it (the number of parsed data rows) — not
the count actually persisted after conflict-ignoring, which can be smaller
— and stamping the crawl summary with that value sets exactly it as the
crawl's `total_pages`. -/
theorem C6_presented_count (crawlId : Nat) (f : CsvFile) (w : World)
    (hr : f.readFail = false) (hi : f.insertFail = false) :
    (process_internal_all_csv crawlId f w).1 = Except.ok f.rows.length
    ∧ (∀ c, c ∈ (update_crawl_summary crawlId f.rows.length
          (process_internal_all_csv crawlId f w).2).db.crawls →
        c.crawl_id = crawlId → c.total_pages = some f.rows.length)
    ∧ (process_internal_all_csv crawlId f w).2.db.pages.length
        ≤ w.db.pages.length + f.rows.length := by
  refine ⟨?_, ?_, ?_⟩
  · cases hE : (f.rows.map (pageOfRow crawlId)).isEmpty <;>
      simp [process_internal_all_csv, hr, hi, hE]
  · intro c hc hcid
    exact update_crawl_summary_total crawlId f.rows.length _ c hc hcid
  · cases hE : (f.rows.map (pageOfRow crawlId)).isEmpty with
    | true => simp [process_internal_all_csv, hr, hi, hE]
    | false =>
      simp only [process_internal_all_csv, hr, hi, hE, Bool.false_eq_true,
        if_false, if_neg]
      have h := insertPagesIgnore_length (f.rows.map (pageOfRow crawlId)) w.db.pages
      simp only [List.length_map] at h
      simpa using h

/-- Witness for C6: a file with two rows sharing one URL reports 2 rows
presented while only 1 page row is actually persisted. -/
theorem C6_presented_count_witness :
    (process_internal_all_csv 1
        ⟨"a_internal_all.csv", false, false, [[("Address", "u")], [("Address", "u")]]⟩
        ⟨⟨[], [], [], [], 1, 1, 0⟩, []⟩).1 = Except.ok 2
    ∧ (process_internal_all_csv 1
        ⟨"a_internal_all.csv", false, false, [[("Address", "u")], [("Address", "u")]]⟩
        ⟨⟨[], [], [], [], 1, 1, 0⟩, []⟩).2.db.pages.length = 1 := by
  constructor
  · exact (C6_presented_count 1
      ⟨"a_internal_all.csv", false, false, [[("Address", "u")], [("Address", "u")]]⟩
      ⟨⟨[], [], [], [], 1, 1, 0⟩, []⟩ rfl rfl).1
  · decide

/-- C2: the session wrapped around the whole run commits exactly once when
the directory walk completes normally; when any exception escapes the
orchestrator's per-domain boundary the entire transaction is rolled back —
the committed database reverts to its state at connection time, undoing
rows written by earlier, successfully processed domains in the same run —
and the connection is closed on every exit path. -/
theorem C2_transaction_scope (faults : Faults) (cfg : Config)
    (root : ExportRoot) (init : World) :
    (runWithConnection (mainBody faults cfg root) init).connClosed = true
    ∧ ((mainBody faults cfg root init).1 = Except.ok () →
        (runWithConnection (mainBody faults cfg root) init).commits = 1
        ∧ (runWithConnection (mainBody faults cfg root) init).rollbacks = 0
        ∧ (runWithConnection (mainBody faults cfg root) init).committedDb
            = (mainBody faults cfg root init).2.db)
    ∧ (∀ e, (mainBody faults cfg root init).1 = Except.error e →
        (runWithConnection (mainBody faults cfg root) init).commits = 0
        ∧ (runWithConnection (mainBody faults cfg root) init).rollbacks = 1
        ∧ (runWithConnection (mainBody faults cfg root) init).committedDb
            = init.db) := by
  cases hb : mainBody faults cfg root init with
  | mk r w =>
    cases r with
    | ok a =>
      cases a
      refine ⟨by simp [runWithConnection, hb], ?_, ?_⟩
      · intro _
        refine ⟨?_, ?_, ?_⟩ <;> simp [runWithConnection, hb]
      · intro e h
        simp at h
    | error e =>
      refine ⟨by simp [runWithConnection, hb], ?_, ?_⟩
      · intro h
        simp at h
      · intro e' _
        refine ⟨?_, ?_, ?_⟩ <;> simp [runWithConnection, hb]

/-- Witness for C2: a clean one-domain run commits once with its rows
visible; the same run followed by a date directory whose listing raises
rolls everything back — one page row existed mid-run, yet the committed
database is the empty initial one — and both runs close the connection. -/
theorem C2_transaction_scope_witness :
    (runWithConnection (mainBody ⟨false, false⟩ ⟨some false, some "exports"⟩
        ⟨true, false, [⟨"2024_01_15", true, false, [⟨"example.com", true,
          [⟨"page_internal_all.csv", false, false,
            [[("Address", "u"), ("Status Code", "200")]]⟩]⟩]⟩]⟩)
        ⟨⟨[], [], [], [], 1, 1, 0⟩, []⟩).commits = 1
    ∧ (runWithConnection (mainBody ⟨false, false⟩ ⟨some false, some "exports"⟩
        ⟨true, false, [⟨"2024_01_15", true, false, [⟨"example.com", true,
          [⟨"page_internal_all.csv", false, false,
            [[("Address", "u"), ("Status Code", "200")]]⟩]⟩]⟩]⟩)
        ⟨⟨[], [], [], [], 1, 1, 0⟩, []⟩).connClosed = true
    ∧ (mainBody ⟨false, false⟩ ⟨some false, some "exports"⟩
        ⟨true, false, [⟨"2024_01_15", true, false, [⟨"example.com", true,
          [⟨"page_internal_all.csv", false, false,
            [[("Address", "u"), ("Status Code", "200")]]⟩]⟩]⟩,
          ⟨"2024_01_16", true, true, []⟩]⟩
        ⟨⟨[], [], [], [], 1, 1, 0⟩, []⟩).2.db.pages.length = 1
    ∧ (runWithConnection (mainBody ⟨false, false⟩ ⟨some false, some "exports"⟩
        ⟨true, false, [⟨"2024_01_15", true, false, [⟨"example.com", true,
          [⟨"page_internal_all.csv", false, false,
            [[("Address", "u"), ("Status Code", "200")]]⟩]⟩]⟩,
          ⟨"2024_01_16", true, true, []⟩]⟩)
        ⟨⟨[], [], [], [], 1, 1, 0⟩, []⟩).rollbacks = 1
    ∧ (runWithConnection (mainBody ⟨false, false⟩ ⟨some false, some "exports"⟩
        ⟨true, false, [⟨"2024_01_15", true, false, [⟨"example.com", true,
          [⟨"page_internal_all.csv", false, false,
            [[("Address", "u"), ("Status Code", "200")]]⟩]⟩]⟩,
          ⟨"2024_01_16", true, true, []⟩]⟩)
        ⟨⟨[], [], [], [], 1, 1, 0⟩, []⟩).committedDb
      = ⟨[], [], [], [], 1, 1, 0⟩ := by
  refine ⟨?_, ?_, by decide, ?_, ?_⟩
  · exact ((C2_transaction_scope ⟨false, false⟩ ⟨some false, some "exports"⟩
      ⟨true, false, [⟨"2024_01_15", true, false, [⟨"example.com", true,
        [⟨"page_internal_all.csv", false, false,
          [[("Address", "u"), ("Status Code", "200")]]⟩]⟩]⟩]⟩
      ⟨⟨[], [], [], [], 1, 1, 0⟩, []⟩).2.1 (by decide)).1
  · exact (C2_transaction_scope ⟨false, false⟩ ⟨some false, some "exports"⟩
      ⟨true, false, [⟨"2024_01_15", true, false, [⟨"example.com", true,
        [⟨"page_internal_all.csv", false, false,
          [[("Address", "u"), ("Status Code", "200")]]⟩]⟩]⟩]⟩
      ⟨⟨[], [], [], [], 1, 1, 0⟩, []⟩).1
  · exact ((C2_transaction_scope ⟨false, false⟩ ⟨some false, some "exports"⟩
      ⟨true, false, [⟨"2024_01_15", true, false, [⟨"example.com", true,
        [⟨"page_internal_all.csv", false, false,
          [[("Address", "u"), ("Status Code", "200")]]⟩]⟩]⟩,
        ⟨"2024_01_16", true, true, []⟩]⟩
      ⟨⟨[], [], [], [], 1, 1, 0⟩, []⟩).2.2 EtlErr.osError (by decide)).2.1
  · exact ((C2_transaction_scope ⟨false, false⟩ ⟨some false, some "exports"⟩
      ⟨true, false, [⟨"2024_01_15", true, false, [⟨"example.com", true,
        [⟨"page_internal_all.csv", false, false,
          [[("Address", "u"), ("Status Code", "200")]]⟩]⟩]⟩,
        ⟨"2024_01_16", true, true, []⟩]⟩
      ⟨⟨[], [], [], [], 1, 1, 0⟩, []⟩).2.2 EtlErr.osError (by decide)).2.2

/-- C5 counterexample: `"abcdefghij"` is ten characters but contains no
underscore, so it is not an underscore-separated date token — yet the
orchestrator processes a directory of that name: a full run over such a
root creates a crawl whose stored date is the name itself.  The filter on
line 282 checks only `len(d.name) == 10`. -/
theorem C5_date_filter_counterexample :
    underscoreSeparatedDateToken "abcdefghij" = false
    ∧ dateDirsOf [⟨"abcdefghij", true, false, [⟨"dom.com", true, []⟩]⟩]
        = [⟨"abcdefghij", true, false, [⟨"dom.com", true, []⟩]⟩]
    ∧ (process_export_directory ⟨false, false⟩ ⟨some false, some "exports"⟩
        ⟨true, false, [⟨"abcdefghij", true, false, [⟨"dom.com", true, []⟩]⟩]⟩
        ⟨⟨[], [], [], [], 1, 1, 0⟩, []⟩).2.db.crawls
      = [{ crawl_id := 1, site_id := 1, crawl_date := "abcdefghij",
           crawl_status := "completed", total_pages := none,
           crawl_started_at := some 0, crawl_completed_at := none }] :=
  ⟨by decide, by decide, by decide⟩

/-- C5 amended: the orchestrator processes an immediate subdirectory of the
export root iff it is a directory and its name is exactly 10 characters
long — the underscore pattern of a date token is not checked — and the
stored crawl date is the directory name with every underscore replaced by
a hyphen (so for `2024_01_15` the crawl is dated `2024-01-15`, while an
underscore-free 10-character name is stored verbatim). -/
theorem C5_date_filter_amended (entries : List DateEntry) (e : DateEntry) :
    (e ∈ dateDirsOf entries ↔ e ∈ entries ∧ e.isDir = true ∧ e.name.length = 10)
    ∧ (process_export_directory ⟨false, false⟩ ⟨some false, some "exports"⟩
        ⟨true, false, [⟨"2024_01_15", true, false, [⟨"ex.com", true, []⟩]⟩]⟩
        ⟨⟨[], [], [], [], 1, 1, 0⟩, []⟩).2.db.crawls
      = [{ crawl_id := 1, site_id := 1, crawl_date := "2024-01-15",
           crawl_status := "completed", total_pages := none,
           crawl_started_at := some 0, crawl_completed_at := none }] := by
  constructor
  · simp [dateDirsOf, List.mem_filter, Bool.and_eq_true, beq_iff_eq]
  · decide

/-- A successfully read and inserted CSV reports the presented row count. -/
theorem process_internal_all_csv_ok (crawlId : Nat) (f : CsvFile) (w : World)
    (hr : f.readFail = false) (hi : f.insertFail = false) :
    (process_internal_all_csv crawlId f w).1 = Except.ok f.rows.length := by
  cases hE : (f.rows.map (pageOfRow crawlId)).isEmpty <;>
    simp [process_internal_all_csv, hr, hi, hE]

/-- With archiving explicitly disabled, the per-domain body never moves a
directory. -/
theorem processDomainBody_archived_off (faults : Faults) (cfg : Config)
    (dateName crawlDate : String) (d : DomainDir) (w : World)
    (h : cfg.archive_processed_files = some false) :
    (processDomainBody faults cfg dateName crawlDate d w).2.archived
      = w.archived := by
  have hsw := (get_or_create_site_preserves w d.name none).2.2.2.1
  cases hcsv : domainCsvFiles d with
  | nil =>
    simp only [processDomainBody, hcsv]
    rw [(log_etl_event_preserves _ _ _ _ _ _ _).2.2.2]
    exact ((get_or_create_crawl_preserves _ _ _).2.2.2).trans hsw
  | cons f rest =>
    simp only [processDomainBody, hcsv]
    cases hp : process_internal_all_csv
        (get_or_create_crawl (get_or_create_site w d.name none).2
          (get_or_create_site w d.name none).1 crawlDate).1 f
        (get_or_create_crawl (get_or_create_site w d.name none).2
          (get_or_create_site w d.name none).1 crawlDate).2 with
    | mk r w3 =>
      have hw3 : w3.archived = w.archived := by
        have hcp := (process_internal_all_csv_preserves
          (get_or_create_crawl (get_or_create_site w d.name none).2
            (get_or_create_site w d.name none).1 crawlDate).1 f
          (get_or_create_crawl (get_or_create_site w d.name none).2
            (get_or_create_site w d.name none).1 crawlDate).2).2.2.2.1
        rw [hp] at hcp
        exact hcp.trans (((get_or_create_crawl_preserves _ _ _).2.2.2).trans hsw)
      cases r with
      | error e => simpa [hp] using hw3
      | ok totalPages =>
        simp only [hp, h, Option.getD_some, Bool.false_eq_true, if_false]
        rw [(log_etl_event_preserves _ _ _ _ _ _ _).2.2.2,
          (update_crawl_summary_preserves _ _ _).2.2.2]
        exact hw3

/-- With archiving explicitly disabled, one domain iteration never moves a
directory. -/
theorem processDomain_archived_off (faults : Faults) (cfg : Config)
    (dateName crawlDate : String) (d : DomainDir) (w : World)
    (h : cfg.archive_processed_files = some false) :
    (processDomain faults cfg dateName crawlDate d w).2.archived
      = w.archived := by
  have hb0 := processDomainBody_archived_off faults cfg dateName crawlDate d w h
  cases hb : processDomainBody faults cfg dateName crawlDate d w with
  | mk r w2 =>
    rw [hb] at hb0
    cases r with
    | ok a => simpa [processDomain, hb] using hb0
    | error e =>
      simp only [processDomain, hb]
      rw [(log_etl_event_preserves _ _ _ _ _ _ _).2.2.2]
      exact hb0

/-- With archiving explicitly disabled, the domain loop never moves a
directory. -/
theorem processDomains_archived_off (faults : Faults) (cfg : Config)
    (dateName crawlDate : String)
    (h : cfg.archive_processed_files = some false) :
    ∀ (ds : List DomainDir) (w : World),
      (processDomains faults cfg dateName crawlDate ds w).2.archived
        = w.archived := by
  intro ds
  induction ds with
  | nil => intro w; rfl
  | cons d ds ih =>
    intro w
    have hd0 := processDomain_archived_off faults cfg dateName crawlDate d w h
    cases hd : processDomain faults cfg dateName crawlDate d w with
    | mk r w2 =>
      rw [hd] at hd0
      cases r with
      | ok a =>
        simp only [processDomains, hd]
        exact (ih w2).trans hd0
      | error e => simpa [processDomains, hd] using hd0

/-- With archiving explicitly disabled, one date iteration never moves a
directory. -/
theorem processDate_archived_off (faults : Faults) (cfg : Config)
    (de : DateEntry) (w : World)
    (h : cfg.archive_processed_files = some false) :
    (processDate faults cfg de w).2.archived = w.archived := by
  cases hf : de.iterFail with
  | true => simp [processDate, hf]
  | false =>
    simp only [processDate, hf, Bool.false_eq_true, if_false]
    exact processDomains_archived_off faults cfg de.name
      (underscoreToHyphen de.name) h _ w

/-- With archiving explicitly disabled, the date loop never moves a
directory. -/
theorem processDates_archived_off (faults : Faults) (cfg : Config)
    (h : cfg.archive_processed_files = some false) :
    ∀ (des : List DateEntry) (w : World),
      (processDates faults cfg des w).2.archived = w.archived := by
  intro des
  induction des with
  | nil => intro w; rfl
  | cons de des ih =>
    intro w
    have hd0 := processDate_archived_off faults cfg de w h
    cases hd : processDate faults cfg de w with
    | mk r w2 =>
      rw [hd] at hd0
      cases r with
      | ok a =>
        simp only [processDates, hd]
        exact (ih w2).trans hd0
      | error e => simpa [processDates, hd] using hd0

/-- With archiving explicitly disabled, a whole run never moves a
directory. -/
theorem process_export_directory_archived_off (faults : Faults) (cfg : Config)
    (root : ExportRoot) (w : World)
    (h : cfg.archive_processed_files = some false) :
    (process_export_directory faults cfg root w).2.archived = w.archived := by
  cases hf : root.iterFail with
  | true => simp [process_export_directory, hf]
  | false =>
    simp only [process_export_directory, hf, Bool.false_eq_true, if_false]
    cases hE : (dateDirsOf root.entries).isEmpty with
    | true => simp [hE]
    | false =>
      simp only [hE, Bool.false_eq_true, if_false]
      exact processDates_archived_off faults cfg h _ w

/-- C9 counterexample: a configuration that does not set
`archive_processed_files` at all — archiving is not enabled by the
configuration — still moves the processed domain directory, because
line 325 reads the key with default `True`. -/
theorem C9_archive_default_counterexample :
    (⟨none, some "exports"⟩ : Config).archive_processed_files = none
    ∧ (process_export_directory ⟨false, false⟩ ⟨none, some "exports"⟩
        ⟨true, false, [⟨"2024_01_15", true, false, [⟨"example.com", true,
          [⟨"page_internal_all.csv", false, false, [[("Address", "u")]]⟩]⟩]⟩]⟩
        ⟨⟨[], [], [], [], 1, 1, 0⟩, []⟩).2.archived
      = ["2024_01_15/example.com"] :=
  ⟨rfl, by decide⟩

/-- C9 amended: archiving defaults to enabled — the code reads
`config.get('archive_processed_files', True)` — so the Archive Mover is
invoked for a successfully processed domain directory unless the
configuration explicitly disables archiving.  When the key is set to
`false` a run never moves any directory; whenever the lookup yields `true`
— including by default when the key is absent — a successfully processed
domain directory is moved. -/
theorem C9_archive_flag_amended (faults : Faults) (cfg : Config)
    (root : ExportRoot) (dateName crawlDate : String) (d : DomainDir)
    (f : CsvFile) (rest : List CsvFile) (p : String) (w : World) :
    (cfg.archive_processed_files = some false →
      (process_export_directory faults cfg root w).2.archived = w.archived)
    ∧ (domainCsvFiles d = f :: rest → f.readFail = false →
        f.insertFail = false → cfg.archive_processed_files.getD true = true →
        cfg.base_export_path = some p → faults.archiveFail = false →
        (processDomainBody faults cfg dateName crawlDate d w).2.archived
          = w.archived ++ [pathJoin dateName d.name]) := by
  constructor
  · intro h
    exact process_export_directory_archived_off faults cfg root w h
  · intro hcsv hrf hif hflag hbp haf
    have hsw := (get_or_create_site_preserves w d.name none).2.2.2.1
    simp only [processDomainBody, hcsv]
    cases hp : process_internal_all_csv
        (get_or_create_crawl (get_or_create_site w d.name none).2
          (get_or_create_site w d.name none).1 crawlDate).1 f
        (get_or_create_crawl (get_or_create_site w d.name none).2
          (get_or_create_site w d.name none).1 crawlDate).2 with
    | mk r w3 =>
      have hw3 : w3.archived = w.archived := by
        have hcp := (process_internal_all_csv_preserves
          (get_or_create_crawl (get_or_create_site w d.name none).2
            (get_or_create_site w d.name none).1 crawlDate).1 f
          (get_or_create_crawl (get_or_create_site w d.name none).2
            (get_or_create_site w d.name none).1 crawlDate).2).2.2.2.1
        rw [hp] at hcp
        exact hcp.trans (((get_or_create_crawl_preserves _ _ _).2.2.2).trans hsw)
      have hr0 := process_internal_all_csv_ok
        (get_or_create_crawl (get_or_create_site w d.name none).2
          (get_or_create_site w d.name none).1 crawlDate).1 f
        (get_or_create_crawl (get_or_create_site w d.name none).2
          (get_or_create_site w d.name none).1 crawlDate).2 hrf hif
      rw [hp] at hr0
      cases r with
      | error e => exact absurd hr0 (by simp)
      | ok n =>
        simp only [hp, hflag, if_true, hbp]
        simp only [archive_processed_files, haf, Bool.false_eq_true, if_false]
        rw [(log_etl_event_preserves _ _ _ _ _ _ _).2.2.2,
          (update_crawl_summary_preserves _ _ _).2.2.2, hw3]

/-- Witness for C9: with the key set to `false` a clean run archives
nothing; with the key absent the successfully processed domain directory is
moved. -/
theorem C9_archive_flag_amended_witness :
    (process_export_directory ⟨false, false⟩ ⟨some false, some "exports"⟩
        ⟨true, false, [⟨"2024_01_15", true, false, [⟨"example.com", true,
          [⟨"page_internal_all.csv", false, false, [[("Address", "u")]]⟩]⟩]⟩]⟩
        ⟨⟨[], [], [], [], 1, 1, 0⟩, []⟩).2.archived = []
    ∧ (processDomainBody ⟨false, false⟩ ⟨none, some "exports"⟩ "2024_01_15"
        "2024-01-15" ⟨"example.com", true,
          [⟨"page_internal_all.csv", false, false, [[("Address", "u")]]⟩]⟩
        ⟨⟨[], [], [], [], 1, 1, 0⟩, []⟩).2.archived
      = ["2024_01_15/example.com"] := by
  constructor
  · exact (C9_archive_flag_amended ⟨false, false⟩ ⟨some false, some "exports"⟩
      ⟨true, false, [⟨"2024_01_15", true, false, [⟨"example.com", true,
        [⟨"page_internal_all.csv", false, false, [[("Address", "u")]]⟩]⟩]⟩]⟩
      "2024_01_15" "2024-01-15" ⟨"example.com", true, []⟩
      ⟨"page_internal_all.csv", false, false, []⟩ [] "exports"
      ⟨⟨[], [], [], [], 1, 1, 0⟩, []⟩).1 rfl
  · exact ((C9_archive_flag_amended ⟨false, false⟩ ⟨none, some "exports"⟩
      ⟨true, false, []⟩ "2024_01_15" "2024-01-15" ⟨"example.com", true,
        [⟨"page_internal_all.csv", false, false, [[("Address", "u")]]⟩]⟩
      ⟨"page_internal_all.csv", false, false, [[("Address", "u")]]⟩ [] "exports"
      ⟨⟨[], [], [], [], 1, 1, 0⟩, []⟩).2 (by decide) rfl rfl rfl rfl rfl).trans
      (by decide)

end SeoEtl
